import Mathlib

/-!
Shallow embedding of `psych.h` (hvacFunctions): psychrometric property
functions over the reals.  C `double` arithmetic is modelled by exact real
arithmetic; `exp`, `log` and fractional `pow` are `Real.exp`, `Real.log`
and `Real.rpow`.  C locals that are read before any assignment on some
path (the `Twb, Dew, RH, W, h, out` locals of `psych`, and the shadowing
re-declaration of `Wet_bulb` inside the `wet_bulb` loop) are modelled as
explicit parameters carrying an arbitrary (indeterminate) value.
-/

noncomputable section

/-- part_press (psych.h lines 17-27): partial vapor pressure [kPa] from
ambient pressure P [kPa] and humidity ratio W. -/
def part_press (P W : ℝ) : ℝ :=
  P * W / (0.62198 + W)

/-- sat_press (psych.h lines 30-65): saturation vapor pressure [kPa] from
dry-bulb temperature [degC].  The C code initializes `TK = 173.15` and
immediately overwrites it with `Tdb + 273.15`; the dead store is dropped.
Coefficients C1..C7 are the ice-phase set, C8..C13 the liquid-phase set. -/
def sat_press (Tdb : ℝ) : ℝ :=
  let C1 : ℝ := -5674.5359
  let C2 : ℝ := 6.3925247
  let C3 : ℝ := -0.009677843
  let C4 : ℝ := 0.00000062215701
  let C5 : ℝ := 2.0747825e-9
  let C6 : ℝ := -9.484024e-13
  let C7 : ℝ := 4.1635019
  let C8 : ℝ := -5800.2206
  let C9 : ℝ := 1.3914993
  let C10 : ℝ := -0.048640239
  let C11 : ℝ := 0.000041764768
  let C12 : ℝ := -0.000000014452093
  let C13 : ℝ := 6.5459673
  let TK : ℝ := Tdb + 273.15
  if TK ≤ 273.15 then
    Real.exp (C1 / TK + C2 + C3 * TK + C4 * TK ^ 2 + C5 * TK ^ 3 + C6 * TK ^ 4
      + C7 * Real.log TK) / 1000
  else
    Real.exp (C8 / TK + C9 + C10 * TK + C11 * TK ^ 2 + C12 * TK ^ 3
      + C13 * Real.log TK) / 1000

/-- hum_rat (psych.h lines 68-91): humidity ratio from dry bulb, wet bulb
[degC] and pressure [kPa]; branches on the sign of Tdb. -/
def hum_rat (Tdb Twb P : ℝ) : ℝ :=
  let Pws : ℝ := sat_press Twb
  let Ws : ℝ := 0.62198 * Pws / (P - Pws)
  if Tdb ≥ 0 then
    ((2501 - 2.326 * Twb) * Ws - 1.006 * (Tdb - Twb)) / (2501 + 1.86 * Tdb - 4.186 * Twb)
  else
    ((2830 - 0.24 * Twb) * Ws - 1.006 * (Tdb - Twb)) / (2830 + 1.86 * Tdb - 2.1 * Twb)

/-- hum_rat2 (psych.h lines 94-106): humidity ratio from dry bulb [degC],
relative humidity [fraction] and pressure [kPa]. -/
def hum_rat2 (Tdb RH P : ℝ) : ℝ :=
  let Pws : ℝ := sat_press Tdb
  0.62198 * RH * Pws / (P - RH * Pws)

/-- rel_hum (psych.h lines 109-120): relative humidity from dry bulb and
wet bulb [degC] and pressure [kPa]. -/
def rel_hum (Tdb Twb P : ℝ) : ℝ :=
  let W : ℝ := hum_rat Tdb Twb P
  part_press P W / sat_press Tdb

/-- rel_hum2 (psych.h lines 123-132): relative humidity from dry bulb
[degC], humidity ratio and pressure [kPa]. -/
def rel_hum2 (Tdb W P : ℝ) : ℝ :=
  part_press P W / sat_press Tdb

/-- One execution of the do-while body of wet_bulb (psych.h lines 148-155),
iterated with a fuel bound.  The C body re-declares `double Wet_bulb = Wet_bulb
- (W_new - W_normal) / dw_dtwb;`: the declarator brings a fresh inner
`Wet_bulb` into scope before the initializer is evaluated, so the initializer
reads the fresh variable's own indeterminate value, the outer `Wet_bulb`
(parameter `Wb_outer` here, fixed at `Tdb`) is never written, and the
`hum_rat(Tdb, Wet_bulb - 0.001, P)` at the top of the body always sees the
outer variable.  `junk n` models the indeterminate initial content of the
inner variable in iteration `n`.  The function value is `some` of the value
the C `return Wet_bulb;` would yield on loop exit, or `none` if the loop has
not terminated within `fuel` iterations. -/
def wet_bulb_loop (Tdb P W_normal Wb_outer : ℝ) (junk : ℕ → ℝ) :
    ℕ → ℝ → Option ℝ
  | 0, _ => none
  | n + 1, W_new =>
    let W_new2 : ℝ := hum_rat Tdb (Wb_outer - 0.001) P
    let dw_dtwb : ℝ := (W_new - W_new2) / 0.001
    let Wb_inner : ℝ := junk n - (W_new - W_normal) / dw_dtwb
    let W_next : ℝ := hum_rat Tdb Wb_inner P
    if |(W_next - W_normal) / W_normal| > 0.00001 then
      wet_bulb_loop Tdb P W_normal Wb_outer junk n W_next
    else
      some Wb_outer

/-- wet_bulb (psych.h lines 133-158): Newton-Raphson wet-bulb solver from
dry bulb [degC], relative humidity [fraction] and pressure [kPa].  `junk`
supplies the indeterminate values read by the shadowing inner declaration
(see `wet_bulb_loop`); `fuel` bounds the number of loop iterations, with
`none` when the do-while has not exited within the bound. -/
def wet_bulb (Tdb RH P : ℝ) (junk : ℕ → ℝ) (fuel : ℕ) : Option ℝ :=
  let W_normal : ℝ := hum_rat2 Tdb RH P
  let Wet_bulb : ℝ := Tdb
  wet_bulb_loop Tdb P W_normal Wet_bulb junk fuel (hum_rat Tdb Wet_bulb P)

/-- enthalpy_air_h2o (psych.h lines 160-169): moist-air enthalpy
[kJ/kg dry air]. -/
def enthalpy_air_h2o (Tdb W : ℝ) : ℝ :=
  1.006 * Tdb + W * (2501 + 1.86 * Tdb)

/-- dew_point (psych.h lines 172-201): dew-point temperature [degC] from
pressure [kPa] and humidity ratio. -/
def dew_point (P W : ℝ) : ℝ :=
  let C14 : ℝ := 6.54
  let C15 : ℝ := 14.526
  let C16 : ℝ := 0.7389
  let C17 : ℝ := 0.09486
  let C18 : ℝ := 0.4569
  let Pw : ℝ := part_press P W
  let alpha : ℝ := Real.log Pw
  let Tdp1 : ℝ := C14 + C15 * alpha + C16 * alpha ^ 2 + C17 * alpha ^ 3
    + C18 * Pw ^ (0.1984 : ℝ)
  let Tdp2 : ℝ := 6.09 + 12.608 * alpha + 0.4959 * alpha ^ 2
  if Tdp1 ≥ 0 then Tdp1 else Tdp2

/-- dry_air_density (psych.h lines 204-218): dry-air density [kg/m^3]. -/
def dry_air_density (P Tdb W : ℝ) : ℝ :=
  let R_da : ℝ := 287.055
  1000 * P / (R_da * (273.15 + Tdb) * (1 + 1.6078 * W))

/-- STD_press (psych.h lines 232-241): standard pressure [kPa] at an
elevation [m]. -/
def STD_press (elevation : ℝ) : ℝ :=
  101.325 * (1 - 0.0000225577 * elevation) ^ (5.2559 : ℝ)

/-- STD_temp (psych.h lines 244-252): standard temperature [degC] at an
elevation [m]. -/
def STD_temp (elevation : ℝ) : ℝ :=
  15 - 0.0065 * elevation

/-- The local variables `Twb, Dew, RH, W, h` of psych (psych.h line 280).
They are declared without initializers; a `PsychLocals` value passed into
`psych` carries the indeterminate initial contents that paths not assigning
a given local leave in place. -/
structure PsychLocals where
  Twb : ℝ
  Dew : ℝ
  RH : ℝ
  W : ℝ
  h : ℝ

/-- Imperial input temperature normalization, psych.h lines 310 and 315/319:
degF to degC. -/
def ip_temp_in (t : ℝ) : ℝ :=
  (t - 32) / 1.8

/-- Imperial input pressure normalization, psych.h line 311: PSI to kPa. -/
def ip_press_in (p : ℝ) : ℝ :=
  p * 4.4482216152605 / 0.0254 ^ 2 / 1000

/-- Imperial input enthalpy normalization, psych.h line 331: BTU/lb to
kJ/kg, shifting between the two zero-point conventions. -/
def ip_enth_in (x : ℝ) : ℝ :=
  x * 1.055056 / 0.45359237 - 17.884444444

/-- Imperial output temperature conversion, psych.h lines 422 and 425:
degC to degF. -/
def ip_temp_out (o : ℝ) : ℝ :=
  1.8 * o + 32

/-- Imperial output pressure conversion, psych.h line 429: Pa to PSI. -/
def ip_press_out (o : ℝ) : ℝ :=
  o * 0.0254 ^ 2 / 4.448230531

/-- Imperial output enthalpy conversion, psych.h line 432: kJ/kg to
BTU/lb, shifting between the two zero-point conventions. -/
def ip_enth_out (o : ℝ) : ℝ :=
  (o + 17.88444444444) * 0.45359237 / 1.055056

/-- Imperial output specific-volume conversion, psych.h line 436. -/
def ip_vol_out (o : ℝ) : ℝ :=
  o * 0.45359265 / (12 * 0.0254) ^ 3

/-- Imperial output density conversion, psych.h line 439. -/
def ip_dens_out (o : ℝ) : ℝ :=
  o * (12 * 0.0254) ^ 3 / 0.45359265

/-- The `if(SIq == 0)` output-denormalization switch of psych
(psych.h lines 418-441), as a function of the outType selector.  outTypes
3, 4, 6 and 8 (and any selector outside 1..10) have no case and leave the
value unchanged. -/
def ip_denorm (outType : ℤ) (o : ℝ) : ℝ :=
  if outType = 1 then ip_temp_out o
  else if outType = 2 then ip_temp_out o
  else if outType = 5 then ip_press_out o
  else if outType = 7 then ip_enth_out o
  else if outType = 9 then ip_vol_out o
  else if outType = 10 then ip_dens_out o
  else o

/-- The `switch(outType)` output-computation block of psych
(psych.h lines 382-416), evaluated on the already-normalized pressure and
dry bulb and the resolved locals.  outType 1 runs the `wet_bulb` do-while
loop, so it needs the `junk`/`fuel` parameters of `wet_bulb` and may fail
to terminate (`none`); a selector outside 1..10 leaves `out` at its
indeterminate initial value `out0`. -/
def psych_out (P Tdb : ℝ) (l : PsychLocals) (outType : ℤ) (out0 : ℝ)
    (junk : ℕ → ℝ) (fuel : ℕ) : Option ℝ :=
  if outType = 1 then wet_bulb Tdb l.RH P junk fuel
  else if outType = 2 then some (dew_point P l.W)
  else if outType = 3 then some l.RH
  else if outType = 4 then some l.W
  else if outType = 5 then some (part_press P l.W * 1000)
  else if outType = 6 then some (l.W / hum_rat2 Tdb 1 P)
  else if outType = 7 then some (enthalpy_air_h2o Tdb l.W)
  else if outType = 8 then some (-9999)
  else if outType = 9 then some (1 / dry_air_density P Tdb l.W)
  else if outType = 10 then some (dry_air_density P Tdb l.W * (1 + l.W))
  else some out0

/-- psych (psych.h lines 254-443).  `init` carries the indeterminate
initial contents of the uninitialized locals `Twb, Dew, RH, W, h`, `out0`
that of `out`, and `junk`/`fuel` parametrize the `wet_bulb` loop (see
`wet_bulb_loop`).  Stage 1 (lines 282-337) normalizes the inputs: the SI
branch is taken exactly when `SIq == 1`, every other SIq value takes the
Imperial branch.  Stage 2 (lines 339-379) resolves RH when
`outType == 3 || outType == 1` and W otherwise; in the W switch, `case 4`
has no `break` and falls through into `case 7`, overwriting W with the
enthalpy inversion of the (unassigned) local `h`.  Stage 3 computes the
output (`psych_out`) and stage 4 applies the Imperial output conversion
exactly when `SIq == 0` (`ip_denorm`). -/
def psych (P Tdb : ℝ) (inValue : ℤ) (inType outType SIq : ℤ)
    (init : PsychLocals) (out0 : ℝ) (junk : ℕ → ℝ) (fuel : ℕ) : Option ℝ :=
  let v : ℝ := (inValue : ℝ)
  let P1 : ℝ := if SIq = 1 then P / 1000 else ip_press_in P
  let Tdb1 : ℝ := if SIq = 1 then Tdb else ip_temp_in Tdb
  let l1 : PsychLocals :=
    if SIq = 1 then
      if inType = 1 then { init with Twb := v }
      else if inType = 2 then { init with Dew := v }
      else if inType = 3 then { init with RH := v }
      else if inType = 4 then { init with W := v }
      else if inType = 7 then { init with h := v }
      else init
    else
      if inType = 1 then { init with Twb := ip_temp_in v }
      else if inType = 2 then { init with Dew := ip_temp_in v }
      else if inType = 3 then { init with RH := v }
      else if inType = 4 then { init with W := v }
      else if inType = 7 then { init with h := ip_enth_in v }
      else init
  let l2 : PsychLocals :=
    if outType = 3 ∨ outType = 1 then
      if inType = 1 then { l1 with RH := rel_hum Tdb1 l1.Twb P1 }
      else if inType = 2 then { l1 with RH := sat_press l1.Dew / sat_press Tdb1 }
      else if inType = 3 then l1
      else if inType = 4 then { l1 with RH := part_press P1 l1.W / sat_press Tdb1 }
      else if inType = 7 then
        let W7 : ℝ := (1.006 * Tdb1 - l1.h) / (-(2501 + 1.86 * Tdb1))
        { l1 with W := W7, RH := part_press P1 W7 / sat_press Tdb1 }
      else l1
    else
      if inType = 1 then { l1 with W := hum_rat Tdb1 l1.Twb P1 }
      else if inType = 2 then
        { l1 with W := 0.621945 * sat_press l1.Dew / (P1 - sat_press l1.Dew) }
      else if inType = 3 then { l1 with W := hum_rat2 Tdb1 l1.RH P1 }
      else if inType = 4 ∨ inType = 7 then
        { l1 with W := (1.006 * Tdb1 - l1.h) / (-(2501 + 1.86 * Tdb1)) }
      else l1
  Option.map (fun o => if SIq = 0 then ip_denorm outType o else o)
    (psych_out P1 Tdb1 l2 outType out0 junk fuel)

/-- Ice-phase saturation-pressure correlation as the spec words it
(coefficients C1..C7 over exp(C1/TK + C2 + C3·TK + C4·TK^2 + C5·TK^3 +
C6·TK^4 + C7·ln TK), divided by 1000), as a function of the absolute
temperature TK. -/
def sat_press_ice_fit (TK : ℝ) : ℝ :=
  Real.exp ((-5674.5359) / TK + 6.3925247 + (-0.009677843) * TK
    + 0.00000062215701 * TK ^ 2 + 2.0747825e-9 * TK ^ 3 + (-9.484024e-13) * TK ^ 4
    + 4.1635019 * Real.log TK) / 1000

/-- Liquid-phase saturation-pressure correlation as the spec words it
(coefficients C8..C13, same functional shape), as a function of the
absolute temperature TK. -/
def sat_press_liquid_fit (TK : ℝ) : ℝ :=
  Real.exp ((-5800.2206) / TK + 1.3914993 + (-0.048640239) * TK
    + 0.000041764768 * TK ^ 2 + (-0.000000014452093) * TK ^ 3
    + 6.5459673 * Real.log TK) / 1000

/-- Above-freezing energy-balance form of the humidity ratio as the claim
words it: ((2501 − 2.326·Twb)·Ws − 1.006·(Tdb − Twb)) / (2501 + 1.86·Tdb −
4.186·Twb) with Ws the saturation humidity ratio at the wet bulb. -/
def hum_rat_above_freezing (Tdb Twb P : ℝ) : ℝ :=
  let Ws : ℝ := 0.62198 * sat_press Twb / (P - sat_press Twb)
  ((2501 - 2.326 * Twb) * Ws - 1.006 * (Tdb - Twb)) / (2501 + 1.86 * Tdb - 4.186 * Twb)

/-- Below-freezing energy-balance form of the humidity ratio as the claim
words it, with coefficient set (2830, 0.24, 2.1). -/
def hum_rat_below_freezing (Tdb Twb P : ℝ) : ℝ :=
  let Ws : ℝ := 0.62198 * sat_press Twb / (P - sat_press Twb)
  ((2830 - 0.24 * Twb) * Ws - 1.006 * (Tdb - Twb)) / (2830 + 1.86 * Tdb - 2.1 * Twb)

/-- The above-0degC dew-point candidate fit as the claim words it: the
polynomial in alpha = ln(part_press(P, W)) with coefficients C14..C18 plus
the Pw^0.1984 term. -/
def dew_point_fit_above (P W : ℝ) : ℝ :=
  let Pw : ℝ := part_press P W
  let alpha : ℝ := Real.log Pw
  6.54 + 14.526 * alpha + 0.7389 * alpha ^ 2 + 0.09486 * alpha ^ 3
    + 0.4569 * Pw ^ (0.1984 : ℝ)

/-- The below-0degC dew-point candidate fit as the claim words it: the
quadratic in alpha = ln(part_press(P, W)). -/
def dew_point_fit_below (P W : ℝ) : ℝ :=
  let alpha : ℝ := Real.log (part_press P W)
  6.09 + 12.608 * alpha + 0.4959 * alpha ^ 2

end

/-- Claim C8: sat_press evaluates the ice-phase correlation C1..C7 exactly
when TK = Tdb + 273.15 satisfies TK ≤ 273.15 and the liquid-phase
correlation C8..C13 otherwise, both divided by 1000, with the regime
switch exactly at the freezing point and no blending. -/
theorem sat_press_regime_switch (Tdb : ℝ) :
    sat_press Tdb =
      if Tdb + 273.15 ≤ 273.15 then sat_press_ice_fit (Tdb + 273.15)
      else sat_press_liquid_fit (Tdb + 273.15) := by
  simp only [sat_press, sat_press_ice_fit, sat_press_liquid_fit]

/-- Claim C9: hum_rat uses the above-freezing energy-balance form for every
Tdb ≥ 0 — including exactly Tdb = 0 — and the below-freezing form with
coefficients (2830, 0.24, 2.1) for every Tdb < 0. -/
theorem hum_rat_freezing_branch (Tdb Twb P : ℝ) :
    (hum_rat Tdb Twb P =
      if Tdb ≥ 0 then hum_rat_above_freezing Tdb Twb P
      else hum_rat_below_freezing Tdb Twb P)
    ∧ hum_rat 0 Twb P = hum_rat_above_freezing 0 Twb P := by
  constructor
  · simp only [hum_rat, hum_rat_above_freezing, hum_rat_below_freezing]
  · simp [hum_rat, hum_rat_above_freezing]

/-- Claim C7: dew_point computes both candidate fits and returns the
above-0degC fit Tdp1 exactly when Tdp1 ≥ 0 and the below-0degC fit Tdp2
otherwise — the selection tests the sign of the computed candidate Tdp1
itself. -/
theorem dew_point_sign_selection (P W : ℝ) :
    dew_point P W =
      if dew_point_fit_above P W ≥ 0 then dew_point_fit_above P W
      else dew_point_fit_below P W := by
  simp only [dew_point, dew_point_fit_above, dew_point_fit_below]

/-- Claim C5: for every input with outType = 8 (Entropy), psych returns the
sentinel -9999 in both unit systems; the Imperial denormalization switch
has no case 8 and leaves the sentinel unchanged. -/
theorem psych_entropy_sentinel (P Tdb : ℝ) (inValue inType SIq : ℤ)
    (init : PsychLocals) (out0 : ℝ) (junk : ℕ → ℝ) (fuel : ℕ) :
    psych P Tdb inValue inType 8 SIq init out0 junk fuel = some (-9999) := by
  simp [psych, psych_out, ip_denorm]

/-- Claim C1: with inProperty = HumidityRatio (inType 4) and an output that
goes through the W-resolution switch (outType 4 here, SI units), the missing
break makes case 4 fall through into case 7, so psych returns the enthalpy
inversion of the indeterminate local h — for every inValue, instead of
inValue itself. -/
theorem psych_hum_ratio_input_fallthrough (P Tdb : ℝ) (inValue : ℤ)
    (init : PsychLocals) (out0 : ℝ) (junk : ℕ → ℝ) (fuel : ℕ) :
    psych P Tdb inValue 4 4 1 init out0 junk fuel
      = some ((1.006 * Tdb - init.h) / (-(2501 + 1.86 * Tdb))) := by
  simp [psych, psych_out]

/-- In the wet_bulb loop the outer accumulator is never written (the Newton
update initializes a fresh shadowing variable), so whatever the fuel, the
junk values and the running W_new, the loop either fails to terminate or
yields the untouched outer variable. -/
theorem wet_bulb_loop_outer_invariant (Tdb P Wn Wb : ℝ) (junk : ℕ → ℝ) :
    ∀ (fuel : ℕ) (W_new : ℝ),
      wet_bulb_loop Tdb P Wn Wb junk fuel W_new = none ∨
      wet_bulb_loop Tdb P Wn Wb junk fuel W_new = some Wb := by
  intro fuel
  induction fuel with
  | zero => intro W_new; left; rfl
  | succ n ih =>
    intro W_new
    rw [wet_bulb_loop]
    split
    · exact ih _
    · right; rfl

/-- Claim C2: the wet_bulb iteration starts from guess = Tdb, but the C
loop body re-declares `Wet_bulb`, so the Newton update never reaches the
outer variable: whenever the loop terminates, the returned value is the
initial guess Tdb itself, not the last Newton update. -/
theorem wet_bulb_never_updates_guess (Tdb RH P : ℝ) (junk : ℕ → ℝ) (fuel : ℕ) :
    wet_bulb Tdb RH P junk fuel = none ∨
    wet_bulb Tdb RH P junk fuel = some Tdb := by
  simp only [wet_bulb]
  exact wet_bulb_loop_outer_invariant Tdb P (hum_rat2 Tdb RH P) Tdb junk fuel
    (hum_rat Tdb Tdb P)

/-- Claim C3: composing the wet-bulb solver with rel_hum cannot recover the
input RH: whenever wet_bulb terminates it returns Tdb, so the round-trip
value is rel_hum(Tdb, Tdb, P), which does not depend on RH at all. -/
theorem wet_bulb_roundtrip_ignores_rh (Tdb RH P : ℝ) (junk : ℕ → ℝ) (fuel : ℕ) :
    Option.map (fun t => rel_hum Tdb t P) (wet_bulb Tdb RH P junk fuel) = none ∨
    Option.map (fun t => rel_hum Tdb t P) (wet_bulb Tdb RH P junk fuel)
      = some (rel_hum Tdb Tdb P) := by
  have h := wet_bulb_loop_outer_invariant Tdb P (hum_rat2 Tdb RH P) Tdb junk fuel
    (hum_rat Tdb Tdb P)
  simp only [wet_bulb]
  rcases h with h | h
  · left; rw [h]; rfl
  · right; rw [h]; rfl

/-- Saturation pressure is strictly positive: both regime branches are an
exponential divided by 1000. -/
theorem sat_press_pos (Tdb : ℝ) : 0 < sat_press Tdb := by
  simp only [sat_press]
  split <;> positivity

/-- At the saturation initial guess Twb = Tdb the humidity-ratio primitive
collapses to the saturation humidity ratio, so rel_hum(Tdb, Tdb, P) = 1
for every above-freezing Tdb at subsaturating positive pressure. -/
theorem rel_hum_at_initial_guess (Tdb P : ℝ) (h0 : Tdb ≥ 0) (hP : 0 < P)
    (hlt : sat_press Tdb < P) (hden : 2501 - 2.326 * Tdb ≠ 0) :
    rel_hum Tdb Tdb P = 1 := by
  have hPws : 0 < sat_press Tdb := sat_press_pos Tdb
  have hd : 0 < P - sat_press Tdb := by linarith
  have hw : hum_rat Tdb Tdb P = 0.62198 * sat_press Tdb / (P - sat_press Tdb) := by
    simp only [hum_rat, if_pos h0]
    have e1 : 2501 + 1.86 * Tdb - 4.186 * Tdb = 2501 - 2.326 * Tdb := by ring
    have e2 : (2501 - 2.326 * Tdb) * (0.62198 * sat_press Tdb / (P - sat_press Tdb))
        - 1.006 * (Tdb - Tdb)
        = (2501 - 2.326 * Tdb) * (0.62198 * sat_press Tdb / (P - sat_press Tdb)) := by
      ring
    rw [e1, e2, mul_comm, mul_div_assoc, div_self hden, mul_one]
  simp only [rel_hum]
  rw [hw, div_eq_one_iff_eq hPws.ne']
  simp only [part_press]
  rw [div_eq_iff (by positivity :
    (0.62198 : ℝ) + 0.62198 * sat_press Tdb / (P - sat_press Tdb) ≠ 0)]
  field_simp
  ring

/-- Claim C4 counterexample: the Imperial pressure conversions are not
mutual inverses.  Converting the SI vapor-pressure output 1000 Pa (the
internal value 1 kPa) to PSI with the output conversion and back with the
input normalization yields 4.4482216152605/4448.230531, which differs from
the original 1 kPa by about 2.0e-6 relative — far beyond double-precision
round-off — because the two conversions use different pound-force
constants (4.4482216152605 in, 4.448230531 out). -/
theorem ip_press_roundtrip_not_exact :
    ip_press_in (ip_press_out 1000) ≠ 1 ∧
    |ip_press_in (ip_press_out 1000) - 1| > 0.000001 := by
  have h : ip_press_in (ip_press_out 1000) - 1 = -(17831479 / 8896461062000 : ℝ) := by
    norm_num [ip_press_in, ip_press_out]
  refine ⟨by norm_num [ip_press_in, ip_press_out], ?_⟩
  rw [h, abs_neg, abs_of_pos (by norm_num)]
  norm_num

/-- Claim C4 (amended): the temperature conversions are exact mutual
inverses and RH and humidity ratio pass through unchanged; the pressure
pair composes to multiplication by 4.4482216152605/4448.230531 (the
designed kPa/Pa factor 1000 together with a relative defect of about
2.0e-6 from the mismatched pound-force constants); the enthalpy pair
composes to an exact shift by 4.4e-10 (zero-point constants 17.884444444
on input versus 17.88444444444 on output); specific volume and density
have no input normalization at all, their two output conversions being
exact mutual inverses of each other. -/
theorem ip_unit_conversions_roundtrip_amended :
    (∀ v : ℝ, ip_temp_in (ip_temp_out v) = v)
    ∧ (∀ v : ℝ, ip_denorm 3 v = v)
    ∧ (∀ v : ℝ, ip_denorm 4 v = v)
    ∧ (∀ v : ℝ, ip_press_in (ip_press_out v) = v * (4.4482216152605 / 4448.230531))
    ∧ (∀ v : ℝ, ip_enth_in (ip_enth_out v) = v + 0.00000000044)
    ∧ (∀ v : ℝ, ip_dens_out (ip_vol_out v) = v) := by
  refine ⟨fun v => ?_, fun v => ?_, fun v => ?_, fun v => ?_, fun v => ?_, fun v => ?_⟩
  · simp only [ip_temp_in, ip_temp_out]; ring
  · simp [ip_denorm]
  · simp [ip_denorm]
  · simp only [ip_press_in, ip_press_out]; field_simp; ring
  · simp only [ip_enth_in, ip_enth_out]; field_simp; ring
  · simp only [ip_vol_out, ip_dens_out]; field_simp

/-- Inverting hum_rat2 with rel_hum2 is an exact identity in real
arithmetic on the claimed domain. -/
theorem rel_hum2_hum_rat2_eq (Tdb RH P : ℝ) (hP : 0 < P) (h0 : 0 ≤ RH)
    (hsat : RH * sat_press Tdb < P) :
    rel_hum2 Tdb (hum_rat2 Tdb RH P) P = RH := by
  have hPws : 0 < sat_press Tdb := sat_press_pos Tdb
  have hd : 0 < P - RH * sat_press Tdb := by linarith
  have hW : 0 ≤ 0.62198 * RH * sat_press Tdb / (P - RH * sat_press Tdb) := by positivity
  simp only [rel_hum2, hum_rat2, part_press]
  rw [div_eq_iff hPws.ne', div_eq_iff (by linarith :
    (0.62198 : ℝ) + 0.62198 * RH * sat_press Tdb / (P - RH * sat_press Tdb) ≠ 0)]
  field_simp
  ring

/-- Claim C6: on the claimed domain (P > 0, 0 ≤ RH ≤ 1,
P > RH·sat_press(Tdb)) the humidity-ratio and relative-humidity primitives
are mutually inverse within 1e-4 (in the real-number model the round trip
is exact). -/
theorem hum_rat2_rel_hum2_inverse (Tdb RH P : ℝ) (hP : 0 < P) (h0 : 0 ≤ RH)
    (h1 : RH ≤ 1) (hsat : RH * sat_press Tdb < P) :
    |rel_hum2 Tdb (hum_rat2 Tdb RH P) P - RH| ≤ 0.0001 := by
  rw [rel_hum2_hum_rat2_eq Tdb RH P hP h0 hsat]
  simp
  norm_num

/-- Witness for Claim C6 at Tdb = 25 degC, RH = 0, P = 101.325 kPa. -/
theorem hum_rat2_rel_hum2_inverse_witness :
    (0 : ℝ) < 101.325 ∧ (0 : ℝ) ≤ 0 ∧ (0 : ℝ) ≤ 1 ∧
      0 * sat_press 25 < 101.325 ∧
      |rel_hum2 25 (hum_rat2 25 0 101.325) 101.325 - 0| ≤ 0.0001 :=
  ⟨by norm_num, le_refl 0, by norm_num, by norm_num,
    hum_rat2_rel_hum2_inverse 25 0 101.325 (by norm_num) (le_refl 0)
      (by norm_num) (by norm_num)⟩

/-- Claim C10: the unit-system selector is asymmetric.  Any SIq outside
{0, 1} takes the Imperial input-normalization branch (so psych behaves
exactly as with SIq = 2), while the Imperial output denormalization fires
only at SIq = 0: the SIq = 0 run is exactly the ip_denorm image of the
SIq ∉ {0, 1} run, whose output therefore stays in SI units. -/
theorem psych_unit_selector_asymmetry (SIq : ℤ) (hn0 : SIq ≠ 0) (hn1 : SIq ≠ 1)
    (P Tdb : ℝ) (inValue inType outType : ℤ) (init : PsychLocals) (out0 : ℝ)
    (junk : ℕ → ℝ) (fuel : ℕ) :
    psych P Tdb inValue inType outType SIq init out0 junk fuel
      = psych P Tdb inValue inType outType 2 init out0 junk fuel
    ∧ psych P Tdb inValue inType outType 0 init out0 junk fuel
      = Option.map (ip_denorm outType)
          (psych P Tdb inValue inType outType SIq init out0 junk fuel) := by
  constructor <;> simp [psych, hn0, hn1, Option.map_map, Function.comp]

/-- Witness for Claim C10 at SIq = 3 with concrete Imperial-style inputs. -/
theorem psych_unit_selector_asymmetry_witness :
    psych 14.696 70 50 3 4 3 ⟨0, 0, 0, 0, 0⟩ 0 (fun _ => 0) 5
      = psych 14.696 70 50 3 4 2 ⟨0, 0, 0, 0, 0⟩ 0 (fun _ => 0) 5
    ∧ psych 14.696 70 50 3 4 0 ⟨0, 0, 0, 0, 0⟩ 0 (fun _ => 0) 5
      = Option.map (ip_denorm 4)
          (psych 14.696 70 50 3 4 3 ⟨0, 0, 0, 0, 0⟩ 0 (fun _ => 0) 5) :=
  psych_unit_selector_asymmetry 3 (by decide) (by decide) 14.696 70 50 3 4
    ⟨0, 0, 0, 0, 0⟩ 0 (fun _ => 0) 5
